import Mathlib

/-!
Shallow embedding of the 1&1 (oneandone) libcloud driver:
`libcloud/common/oneandone.py` and `libcloud/compute/drivers/oneandone.py`.

JSON payloads are modelled by the inductive `JVal`; a decoded JSON object
body is a `List (String × JVal)` (Python dict with unique keys, lookup by
first match).  Python code that raises (KeyError, IndexError, TypeError,
unbound local) is modelled by `Option`/explicit outcome types: `none`
means the Python call raises.  Numeric JSON values are modelled as `Int`
(the payloads exercised here are integral).
-/

namespace OneAndOne

/-- JSON values as decoded by `JsonResponse.parse_body`. -/
inductive JVal where
  | null
  | str (s : String)
  | num (n : Int)
  | arr (xs : List JVal)
  | obj (kvs : List (String × JVal))

/-- Dictionary lookup: Python `d[k]` / `k in d` on a decoded JSON object. -/
def jlookup (k : String) : List (String × JVal) → Option JVal
  | [] => none
  | (k', v) :: rest => if k' = k then some v else jlookup k rest

/-- Subscripting a JSON value with a string key: `v[k]` succeeds only when
`v` is a dict containing `k` (otherwise Python raises TypeError/KeyError). -/
def objGet (v : JVal) (k : String) : Option JVal :=
  match v with
  | JVal.obj kvs => jlookup k kvs
  | _ => none

/-- Python `str(x)` as used in `'%s' % x` for the JSON values exercised by
the driver (strings and numbers; the repr of containers is not needed by
any code path modelled here and is abstracted). -/
def pyStr : JVal → String
  | JVal.str s => s
  | JVal.num n => toString n
  | JVal.null => "None"
  | JVal.arr _ => "<arr>"
  | JVal.obj _ => "<obj>"

/-- Decimal digits accumulated left to right; a non-digit raises
(`none`). -/
def parseDigitsAux : Nat → List Char → Option Nat
  | acc, [] => some acc
  | acc, c :: cs =>
      if c.isDigit then parseDigitsAux (acc * 10 + (c.toNat - 48)) cs
      else none

/-- Python `int(s)` on a plain decimal string (optional leading minus and
digits; the exotic `int()` syntax — surrounding whitespace, `+`,
underscores — is not exercised by any payload modelled here). -/
def pyIntOfString (s : String) : Option Int :=
  match s.data with
  | [] => none
  | '-' :: cs =>
      match cs with
      | [] => none
      | _ => (parseDigitsAux 0 cs).map (fun n => -(n : Int))
  | cs => (parseDigitsAux 0 cs).map (fun n => (n : Int))

/-- Python `int(x)` on a JSON value: identity on ints, parse on strings,
TypeError otherwise. -/
def pyInt : JVal → Option Int
  | JVal.num n => some n
  | JVal.str s => pyIntOfString s
  | _ => none

/-! ## OneAndOne_v1_Response (libcloud/common/oneandone.py) -/

/-- The class attribute `valid_response_codes = [httplib.OK,
httplib.ACCEPTED, httplib.CREATED, httplib.NO_CONTENT]`. -/
def valid_response_codes : List Nat := [200, 202, 201, 204]

/-- `OneAndOne_v1_Response.success`: `self.status in self.valid_response_codes`. -/
def success (status : Nat) : Bool := valid_response_codes.contains status

/-- Possible outcomes of `OneAndOne_v1_Response.parse_error`. -/
inductive ParseErrorOutcome where
  | raiseInvalidCreds (msg : JVal)
  | returnError (s : String)
  | returnBody (body : List (String × JVal))

/-- `OneAndOne_v1_Response.parse_error`, for a response with HTTP `status`
whose parsed JSON body is the dict `body`.  Status 401 raises
`InvalidCredsError(body['message'])` (`none` models the KeyError when the
field is absent); otherwise a `'message'` field yields the composite
string `'%s (code: %s)' % (body['message'], self.status)` and an absent
field returns the decoded body itself. -/
def parse_error (status : Nat) (body : List (String × JVal)) :
    Option ParseErrorOutcome :=
  if status = 401 then
    match jlookup "message" body with
    | some m => some (ParseErrorOutcome.raiseInvalidCreds m)
    | none => none
  else
    match jlookup "message" body with
    | some m =>
        some (ParseErrorOutcome.returnError
          (pyStr m ++ " (code: " ++ toString status ++ ")"))
    | none => some (ParseErrorOutcome.returnBody body)

/-! ## OneAndOneNodeDriver facade (libcloud/compute/drivers/oneandone.py) -/

/-- Driver classes relevant to `OneAndOneNodeDriver.__new__`: the facade
class itself, the concrete v1 class, or any other (sub)class reaching the
`else` branch. -/
inductive DriverClass where
  | oneAndOneNodeDriver
  | oneAndOne_v1_NodeDriver
  | otherSubclass
  deriving DecidableEq

/-- Outcome of `OneAndOneNodeDriver.__new__`. -/
inductive NewOutcome where
  | raiseInvalidCreds (msg : String)
  | resolved (cls : DriverClass)
  | raiseNotImplemented (msg : String)
  deriving DecidableEq

/-- `OneAndOneNodeDriver.__new__(cls, key, secret=None, api_version='v1',
**kwargs)`: when `cls` is the facade class, a `None` key raises
`InvalidCredsError` and any other key resolves construction to
`OneAndOne_v1_NodeDriver`; otherwise it raises
`NotImplementedError('Unsupported API version: %s' % api_version)`.
The `api_version` argument is never inspected by the branch condition. -/
def oneAndOneNodeDriver_new (cls : DriverClass) (key : Option String)
    (api_version : String) : NewOutcome :=
  match cls with
  | DriverClass.oneAndOneNodeDriver =>
      match key with
      | none => NewOutcome.raiseInvalidCreds "key missing for v1 authentication"
      | some _ => NewOutcome.resolved DriverClass.oneAndOne_v1_NodeDriver
  | _ => NewOutcome.raiseNotImplemented ("Unsupported API version: " ++ api_version)

/-! ## OneAndOne_v1_NodeDriver -/

/-- Node lifecycle states from `libcloud.compute.types.NodeState`
(restricted to the members this driver uses). -/
inductive NodeState where
  | running
  | rebooting
  | pending
  | unknown
  deriving DecidableEq

/-- The class attribute `NODE_STATE_MAP`, as a partial lookup (Python
`dict.get` with a default is `(NODE_STATE_MAP s).getD d` here). -/
def NODE_STATE_MAP (s : String) : Option NodeState :=
  if s = "DEPLOYING" then some NodeState.pending
  else if s = "POWERED_OFF" then some NodeState.rebooting
  else if s = "POWERED_ON" then some NodeState.running
  else none

/-- Evaluation of `self.NODE_STATE_MAP.get(data['status']['state'],
NodeState.UNKNOWN)` given the value `v` of `data['status']`: subscripting
a non-dict or a dict without `'state'` raises (`none`); `dict.get` with an
unhashable key (list/dict) raises; any other non-member key falls back to
`UNKNOWN`. -/
def stateFromStatus (v : JVal) : Option NodeState :=
  match v with
  | JVal.obj kvs =>
      match jlookup "state" kvs with
      | none => none
      | some (JVal.str s) => some ((NODE_STATE_MAP s).getD NodeState.unknown)
      | some (JVal.num _) => some NodeState.unknown
      | some JVal.null => some NodeState.unknown
      | some (JVal.arr _) => none
      | some (JVal.obj _) => none
  | _ => none

/-- The local `extra_keys` list in `_to_node`. -/
def node_extra_keys : List String :=
  ["backups_active", "region_id", "image_id", "size_id"]

/-- `libcloud.compute.base.Node`, restricted to the fields `_to_node`
sets.  `private_ips` is always passed as `None` by this driver. -/
structure Node where
  id : JVal
  name : JVal
  state : NodeState
  public_ips : List JVal
  private_ips : Option (List JVal)
  extra : List (String × JVal)

/-- `OneAndOne_v1_NodeDriver._to_node(data)`: state from the `status`
block (absent block defaults to `UNKNOWN`), `ips` wrapped into a
one-element list when present and not `None`, passthrough `extra` keys
copied only when present, and mandatory `id`/`name` fields (`none` models
the KeyError when absent). -/
def to_node (data : List (String × JVal)) : Option Node :=
  match (match jlookup "status" data with
         | none => some NodeState.unknown
         | some st => stateFromStatus st) with
  | none => none
  | some state =>
      match jlookup "id" data, jlookup "name" data with
      | some i, some nm =>
          some { id := i, name := nm, state := state,
                 public_ips :=
                   (match jlookup "ips" data with
                    | some JVal.null => []
                    | some v => [v]
                    | none => []),
                 private_ips := none,
                 extra := node_extra_keys.filterMap
                   (fun k => (jlookup k data).map (fun v => (k, v))) }
      | _, _ => none

/-- `libcloud.compute.base.NodeLocation`, restricted to the fields
`_to_location` sets. -/
structure NodeLocation where
  id : JVal
  name : JVal
  country : JVal

/-- `OneAndOne_v1_NodeDriver._to_location(data)`: `NodeLocation(id=
data['id'], name=data['location'], country=data['country_code'])`. -/
def to_location (data : List (String × JVal)) : Option NodeLocation :=
  match jlookup "id" data, jlookup "location" data,
        jlookup "country_code" data with
  | some i, some l, some c => some { id := i, name := l, country := c }
  | _, _, _ => none

/-- `libcloud.compute.base.NodeSize`, restricted to the fields `_to_size`
sets. -/
structure NodeSize where
  id : JVal
  name : JVal
  ram : Int
  disk : JVal
  bandwidth : Int
  price : Int
  extra : List (String × JVal)

/-- The local `extra_keys` list in `_to_size`. -/
def size_extra_keys : List String := ["vcore", "cores_per_processor"]

/-- `OneAndOne_v1_NodeDriver._to_size(data)`: when a `hardware` dict is
present, `ram = int(hardware['ram']) * 1024` and `hdds_size =
hardware['hdds'][0]['size']`; when `hardware` is absent the final
`NodeSize(...)` call reads the unbound locals `ram`/`hdds_size` and the
call raises, as it does on an empty `hdds` list (IndexError) or missing
fields — all modelled by `none`. -/
def to_size (data : List (String × JVal)) : Option NodeSize :=
  match jlookup "hardware" data with
  | some (JVal.obj hw) =>
      match (jlookup "ram" hw).bind pyInt with
      | none => none
      | some r =>
          match jlookup "hdds" hw with
          | some (JVal.arr hdds) =>
              match hdds.head? with
              | some h0 =>
                  match objGet h0 "size" with
                  | some sz =>
                      match jlookup "id" data, jlookup "name" data with
                      | some i, some nm =>
                          some { id := i, name := nm, ram := r * 1024,
                                 disk := sz, bandwidth := 0, price := 0,
                                 extra := size_extra_keys.filterMap
                                   (fun k => (jlookup k hw).map
                                     (fun v => (k, v))) }
                      | _, _ => none
                  | none => none
              | none => none
          | _ => none
  | _ => none

/-! ## create_node -/

/-- The `NodeSize` argument of `create_node`; only its `id` is read. -/
structure SizeArg where
  id : JVal
  name : JVal

/-- The request body `create_node` builds and POSTs to `/v1/servers`:
`{"name": name, "description": "test", "hardware":
{"fixed_instance_size_id": size.id}, "appliance_id":
"7B9067380CB74BBDFE7F473DEEA2AF5C"}`.  The `image` and `location`
parameters are accepted but never read. -/
def create_node_form (name : String) (size : SizeArg) (image : JVal)
    (location : Option JVal) : List (String × JVal) :=
  [("name", JVal.str name),
   ("description", JVal.str "test"),
   ("hardware", JVal.obj [("fixed_instance_size_id", size.id)]),
   ("appliance_id", JVal.str "7B9067380CB74BBDFE7F473DEEA2AF5C")]

/-- Python `status == 'ERROR'` on the value read from the body. -/
def isErrorStatus (v : JVal) : Bool :=
  match v with
  | JVal.str s => s = "ERROR"
  | _ => false

/-- Outcome of the response-handling tail of `create_node`. -/
inductive CreateNodeOutcome where
  | nodeCreationFailed (error_message : JVal)
  | created (n : Node)
  | raiseKeyError

/-- The tail of `create_node` applied to the decoded body of an
HTTP-successful response: `status = body.get('status', 'OK')`; if it
equals `'ERROR'`, raise `ValueError('Failed to create node: %s' %
error_message)` with `error_message = body.get('error_message',
body.get('message', None))`; otherwise return `self._to_node(body)`
(whose own KeyErrors are `raiseKeyError`). -/
def create_node_handle (body : List (String × JVal)) : CreateNodeOutcome :=
  let status := (jlookup "status" body).getD (JVal.str "OK")
  if isErrorStatus status then
    let message := (jlookup "message" body).getD JVal.null
    let error_message := (jlookup "error_message" body).getD message
    CreateNodeOutcome.nodeCreationFailed error_message
  else
    match to_node body with
    | some n => CreateNodeOutcome.created n
    | none => CreateNodeOutcome.raiseKeyError

end OneAndOne

namespace OneAndOne

/-- Helper: the Python comparison `status == 'ERROR'` holds exactly on the
string value `"ERROR"`. -/
theorem isErrorStatus_eq_true_iff (v : JVal) :
    isErrorStatus v = true ↔ v = JVal.str "ERROR" := by
  cases v <;> simp [isErrorStatus]

/-- Helper: when the body's `status` is absent or differs from `"ERROR"`,
the `create_node` tail falls through to `_to_node`. -/
theorem create_node_handle_not_error (body : List (String × JVal))
    (h : ∀ v, jlookup "status" body = some v → v ≠ JVal.str "ERROR") :
    create_node_handle body =
      (match to_node body with
       | some n => CreateNodeOutcome.created n
       | none => CreateNodeOutcome.raiseKeyError) := by
  unfold create_node_handle
  cases hst : jlookup "status" body with
  | none => simp [hst, isErrorStatus]
  | some v =>
      have hf : isErrorStatus v = false := by
        cases hb : isErrorStatus v
        · rfl
        · exact absurd ((isErrorStatus_eq_true_iff v).1 hb) (h v hst)
      simp [hst, hf]

/-- Helper: `dict.get` on `NODE_STATE_MAP` with default `UNKNOWN` agrees
with the spec's three-entry lookup table. -/
theorem NODE_STATE_MAP_getD (s : String) :
    (NODE_STATE_MAP s).getD NodeState.unknown =
      (if s = "DEPLOYING" then NodeState.pending
       else if s = "POWERED_OFF" then NodeState.rebooting
       else if s = "POWERED_ON" then NodeState.running
       else NodeState.unknown) := by
  unfold NODE_STATE_MAP
  split_ifs <;> rfl

/-- C2: `success()` is true exactly on the four vendor success codes. -/
theorem success_iff_valid_code (s : Nat) :
    success s = true ↔ s = 200 ∨ s = 201 ∨ s = 202 ∨ s = 204 := by
  simp [success, valid_response_codes, List.contains]
  tauto

/-- C1 (code behaviour at the failing input): constructing the facade
with `api_version = "v2"` and a non-`None` key does not raise; it
resolves to the v1 driver class, because `__new__` branches on `cls`
and never inspects `api_version`. -/
theorem facade_new_unsupported_version_resolves_to_v1 :
    oneAndOneNodeDriver_new DriverClass.oneAndOneNodeDriver (some "k") "v2" =
      NewOutcome.resolved DriverClass.oneAndOne_v1_NodeDriver := rfl

/-- C3: `parse_error` on a failed response: status 401 raises
`InvalidCredsError` carrying the body's `message`; any other status with
a `message` field returns the composite string
`"<message> (code: <status>)"`; without a `message` field it returns the
decoded body itself. -/
theorem parse_error_spec (status : Nat) (body : List (String × JVal)) :
    (∀ m, status = 401 → jlookup "message" body = some m →
       parse_error status body =
         some (ParseErrorOutcome.raiseInvalidCreds m)) ∧
    (∀ msg, status ≠ 401 → jlookup "message" body = some (JVal.str msg) →
       parse_error status body =
         some (ParseErrorOutcome.returnError
           (msg ++ " (code: " ++ toString status ++ ")"))) ∧
    (status ≠ 401 → jlookup "message" body = none →
       parse_error status body =
         some (ParseErrorOutcome.returnBody body)) := by
  refine ⟨?_, ?_, ?_⟩ <;> intros <;> simp_all [parse_error, pyStr]

/-- C3 witness: status 500 with body `{"message": "boom"}` yields the
composite error string `"boom (code: 500)"`. -/
theorem parse_error_spec_witness :
    parse_error 500 [("message", JVal.str "boom")] =
      some (ParseErrorOutcome.returnError "boom (code: 500)") :=
  (parse_error_spec 500 [("message", JVal.str "boom")]).2.1 "boom"
    (by decide) rfl

/-- C7: `_to_location` renames `location`→name and `country_code`→country
exactly and losslessly: the mapped `NodeLocation` carries precisely the
payload's three fields, so they are recoverable from it. -/
theorem to_location_spec (data : List (String × JVal)) (i l c : JVal)
    (h1 : jlookup "id" data = some i)
    (h2 : jlookup "location" data = some l)
    (h3 : jlookup "country_code" data = some c) :
    to_location data = some { id := i, name := l, country := c } ∧
    ∀ loc, to_location data = some loc →
      loc.id = i ∧ loc.name = l ∧ loc.country = c := by
  have he : to_location data = some { id := i, name := l, country := c } := by
    simp [to_location, h1, h2, h3]
  refine ⟨he, ?_⟩
  intro loc hloc
  rw [he] at hloc
  cases hloc
  exact ⟨rfl, rfl, rfl⟩

/-- C7 witness: the payload `{"id":"L1","location":"Lon",
"country_code":"GB"}` maps to `NodeLocation(id="L1", name="Lon",
country="GB")`. -/
theorem to_location_spec_witness :
    to_location [("id", JVal.str "L1"), ("location", JVal.str "Lon"),
                 ("country_code", JVal.str "GB")] =
      some { id := JVal.str "L1", name := JVal.str "Lon",
             country := JVal.str "GB" } :=
  (to_location_spec [("id", JVal.str "L1"), ("location", JVal.str "Lon"),
      ("country_code", JVal.str "GB")]
    (JVal.str "L1") (JVal.str "Lon") (JVal.str "GB") rfl rfl rfl).1

/-- C9: a node payload whose `status` value is a dict lacking a `state`
key makes `_to_node` raise a KeyError rather than defaulting the state to
unknown. -/
theorem to_node_missing_state_raises (data : List (String × JVal))
    (st : List (String × JVal))
    (h1 : jlookup "status" data = some (JVal.obj st))
    (h2 : jlookup "state" st = none) :
    to_node data = none := by
  simp [to_node, h1, stateFromStatus, h2]

/-- C9 witness: the payload `{"status": {"percent": 50}, "id": "1",
"name": "n"}` makes `_to_node` raise. -/
theorem to_node_missing_state_raises_witness :
    to_node [("status", JVal.obj [("percent", JVal.num 50)]),
             ("id", JVal.str "1"), ("name", JVal.str "n")] = none :=
  to_node_missing_state_raises _ [("percent", JVal.num 50)] rfl rfl

/-- C4: the node mapping computes the lifecycle state through the fixed
lookup DEPLOYING→pending, POWERED_OFF→rebooting, POWERED_ON→running; any
other `status.state` string maps to unknown, and a payload with no
`status` key maps to unknown. -/
theorem to_node_state_spec (data : List (String × JVal)) (n : Node)
    (h : to_node data = some n) :
    (jlookup "status" data = none → n.state = NodeState.unknown) ∧
    (∀ st s, jlookup "status" data = some (JVal.obj st) →
       jlookup "state" st = some (JVal.str s) →
       n.state = (if s = "DEPLOYING" then NodeState.pending
         else if s = "POWERED_OFF" then NodeState.rebooting
         else if s = "POWERED_ON" then NodeState.running
         else NodeState.unknown)) := by
  constructor
  · intro h1
    rw [to_node, h1] at h
    cases hid : jlookup "id" data <;> cases hnm : jlookup "name" data <;>
      simp [hid, hnm] at h
    simp [← h]
  · intro st s h1 h2
    rw [to_node, h1] at h
    simp only [stateFromStatus, h2] at h
    cases hid : jlookup "id" data <;> cases hnm : jlookup "name" data <;>
      simp [hid, hnm] at h
    simp [← h, NODE_STATE_MAP_getD]

/-- C4 witness: the payload `{"id":"1","name":"n",
"status":{"state":"POWERED_ON"},"ips":"1.2.3.4"}` maps to a node in the
running state. -/
theorem to_node_state_spec_witness :
    to_node [("id", JVal.str "1"), ("name", JVal.str "n"),
             ("status", JVal.obj [("state", JVal.str "POWERED_ON")]),
             ("ips", JVal.str "1.2.3.4")] =
      some { id := JVal.str "1", name := JVal.str "n",
             state := NodeState.running,
             public_ips := [JVal.str "1.2.3.4"], private_ips := none,
             extra := [] } ∧
    NodeState.running =
      (if "POWERED_ON" = "DEPLOYING" then NodeState.pending
       else if "POWERED_ON" = "POWERED_OFF" then NodeState.rebooting
       else if "POWERED_ON" = "POWERED_ON" then NodeState.running
       else NodeState.unknown) :=
  ⟨rfl,
   (to_node_state_spec
      [("id", JVal.str "1"), ("name", JVal.str "n"),
       ("status", JVal.obj [("state", JVal.str "POWERED_ON")]),
       ("ips", JVal.str "1.2.3.4")]
      { id := JVal.str "1", name := JVal.str "n",
        state := NodeState.running,
        public_ips := [JVal.str "1.2.3.4"], private_ips := none,
        extra := [] } rfl).2
     [("state", JVal.str "POWERED_ON")] "POWERED_ON" rfl rfl⟩

/-- C5: when the payload has a `hardware` dict whose `ram` parses and
whose `hdds` list is non-empty with a sized first element, `_to_size`
returns ram = int(ram) * 1024 and disk = hdds[0]['size']; when the
`hardware` block is absent or the `hdds` list is empty, `_to_size` raises
instead of defaulting to zero. -/
theorem to_size_spec (data : List (String × JVal)) :
    (∀ hw r hdds h0 sz i nm,
        jlookup "hardware" data = some (JVal.obj hw) →
        (jlookup "ram" hw).bind pyInt = some r →
        jlookup "hdds" hw = some (JVal.arr hdds) →
        hdds.head? = some h0 →
        objGet h0 "size" = some sz →
        jlookup "id" data = some i →
        jlookup "name" data = some nm →
        ∃ s, to_size data = some s ∧ s.ram = r * 1024 ∧ s.disk = sz) ∧
    (jlookup "hardware" data = none → to_size data = none) ∧
    (∀ hw, jlookup "hardware" data = some (JVal.obj hw) →
        jlookup "hdds" hw = some (JVal.arr []) → to_size data = none) := by
  refine ⟨?_, ?_, ?_⟩
  · intro hw r hdds h0 sz i nm hhw hram hhdds hh0 hsz hid hnm
    have he : to_size data =
        some { id := i, name := nm, ram := r * 1024, disk := sz,
               bandwidth := 0, price := 0,
               extra := size_extra_keys.filterMap
                 (fun k => (jlookup k hw).map (fun v => (k, v))) } := by
      simp only [to_size, hhw, hram, hhdds, hh0, hsz, hid, hnm]
    exact ⟨_, he, rfl, rfl⟩
  · intro h
    simp [to_size, h]
  · intro hw h1 h2
    cases hr : (jlookup "ram" hw).bind pyInt <;>
      simp [to_size, h1, h2, hr]

/-- C5 witness: the payload `{"id":"s1","name":"S","hardware":{"ram":"2",
"hdds":[{"size":40}]}}` maps to ram = 2048 and disk = 40, while a payload
without a `hardware` block makes `_to_size` raise. -/
theorem to_size_spec_witness :
    (∃ s, to_size [("id", JVal.str "s1"), ("name", JVal.str "S"),
        ("hardware", JVal.obj [("ram", JVal.str "2"),
          ("hdds", JVal.arr [JVal.obj [("size", JVal.num 40)]])])] =
        some s ∧ s.ram = 2 * 1024 ∧ s.disk = JVal.num 40) ∧
    to_size [("id", JVal.str "s1"), ("name", JVal.str "S")] = none :=
  ⟨(to_size_spec [("id", JVal.str "s1"), ("name", JVal.str "S"),
      ("hardware", JVal.obj [("ram", JVal.str "2"),
        ("hdds", JVal.arr [JVal.obj [("size", JVal.num 40)]])])]).1
     [("ram", JVal.str "2"),
      ("hdds", JVal.arr [JVal.obj [("size", JVal.num 40)]])]
     2 [JVal.obj [("size", JVal.num 40)]] (JVal.obj [("size", JVal.num 40)])
     (JVal.num 40) (JVal.str "s1") (JVal.str "S")
     rfl (by decide) rfl rfl rfl rfl rfl,
   (to_size_spec [("id", JVal.str "s1"), ("name", JVal.str "S")]).2.1 rfl⟩

/-- C6: when the decoded create_node body reports `status = "ERROR"`, the
call fails carrying `error_message`, falling back to `message` (and to
`None` when both are absent); otherwise it returns the body mapped
through `_to_node`. -/
theorem create_node_error_spec (body : List (String × JVal)) :
    (jlookup "status" body = some (JVal.str "ERROR") →
       create_node_handle body =
         CreateNodeOutcome.nodeCreationFailed
           ((jlookup "error_message" body).getD
             ((jlookup "message" body).getD JVal.null))) ∧
    (∀ n, (∀ v, jlookup "status" body = some v → v ≠ JVal.str "ERROR") →
       to_node body = some n →
       create_node_handle body = CreateNodeOutcome.created n) := by
  constructor
  · intro h
    simp [create_node_handle, h, isErrorStatus]
  · intro n hne hn
    rw [create_node_handle_not_error body hne, hn]

/-- C6 witness: the body `{"status":"ERROR","error_message":
"quota exceeded"}` fails carrying `"quota exceeded"`. -/
theorem create_node_error_spec_witness :
    create_node_handle [("status", JVal.str "ERROR"),
        ("error_message", JVal.str "quota exceeded")] =
      CreateNodeOutcome.nodeCreationFailed (JVal.str "quota exceeded") :=
  (create_node_error_spec [("status", JVal.str "ERROR"),
      ("error_message", JVal.str "quota exceeded")]).1 rfl

/-- C8: the create_node request body is exactly `{"name": name,
"description": "test", "hardware": {"fixed_instance_size_id": size.id},
"appliance_id": "7B9067380CB74BBDFE7F473DEEA2AF5C"}`, and two calls
agreeing on `name` and `size.id` build identical bodies whatever their
`image` and `location` arguments are. -/
theorem create_node_form_spec (name : String) (s1 s2 : SizeArg)
    (image1 image2 : JVal) (location1 location2 : Option JVal)
    (h : s1.id = s2.id) :
    create_node_form name s1 image1 location1 =
      [("name", JVal.str name),
       ("description", JVal.str "test"),
       ("hardware", JVal.obj [("fixed_instance_size_id", s1.id)]),
       ("appliance_id", JVal.str "7B9067380CB74BBDFE7F473DEEA2AF5C")] ∧
    create_node_form name s1 image1 location1 =
      create_node_form name s2 image2 location2 := by
  exact ⟨rfl, by simp [create_node_form, h]⟩

/-- C8 witness: two calls sharing the name and size id but with different
size names, images and locations build the same request body. -/
theorem create_node_form_spec_witness :
    create_node_form "n" { id := JVal.str "s1", name := JVal.str "A" }
        (JVal.str "imgA") none =
      create_node_form "n" { id := JVal.str "s1", name := JVal.str "B" }
        JVal.null (some (JVal.str "somewhere")) :=
  (create_node_form_spec "n"
    { id := JVal.str "s1", name := JVal.str "A" }
    { id := JVal.str "s1", name := JVal.str "B" }
    (JVal.str "imgA") JVal.null none (some (JVal.str "somewhere")) rfl).2

/-- C10 counterexample: for the body `{"status":"error","id":"1",
"name":"n"}` — whose `status` differs from `"ERROR"` only in case —
create_node does not return a node: the vendor-level check passes but
`_to_node` then raises subscripting the string `"error"` with
`['state']`. -/
theorem create_node_status_error_string_raises :
    create_node_handle [("status", JVal.str "error"),
        ("id", JVal.str "1"), ("name", JVal.str "n")] =
      CreateNodeOutcome.raiseKeyError := rfl

/-- C10 (amended): the vendor-level error check is case-sensitive and
defaults to success: when the body has no `status` key or its `status`
value is not exactly `"ERROR"`, create_node never raises the
creation-failed error and instead hands the body to `_to_node`, returning
that node whenever the mapping succeeds. -/
theorem create_node_status_case_sensitive (body : List (String × JVal))
    (h : ∀ v, jlookup "status" body = some v → v ≠ JVal.str "ERROR") :
    (∀ e, create_node_handle body ≠
       CreateNodeOutcome.nodeCreationFailed e) ∧
    (∀ n, to_node body = some n →
       create_node_handle body = CreateNodeOutcome.created n) := by
  have hfall := create_node_handle_not_error body h
  constructor
  · intro e
    rw [hfall]
    cases hn : to_node body <;> simp
  · intro n hn
    rw [hfall, hn]

/-- C10 witness: a body with no `status` key maps straight to a node in
the unknown state. -/
theorem create_node_status_case_sensitive_witness :
    create_node_handle [("id", JVal.str "1"), ("name", JVal.str "n")] =
      CreateNodeOutcome.created
        { id := JVal.str "1", name := JVal.str "n",
          state := NodeState.unknown, public_ips := [],
          private_ips := none, extra := [] } :=
  (create_node_status_case_sensitive
      [("id", JVal.str "1"), ("name", JVal.str "n")]
      (by intro v hv; simp [jlookup] at hv)).2
    { id := JVal.str "1", name := JVal.str "n",
      state := NodeState.unknown, public_ips := [],
      private_ips := none, extra := [] } rfl

end OneAndOne
